import Mathlib

/-!
Verification of the terminal-session manager (`terminal-service.ts`) of this
repository.  The implementation file itself is not part of the sources here;
only its test suite is.  The definitions below are therefore modelled from the
specification's contracts, with the repository's own test suite taken as the
authority wherever it pins down concrete behaviour (standard shell paths,
session-id shape, boolean results on error paths, and so on).

Ambient platform state (OS name, environment variables, filesystem probes,
PTY-level failures) is represented by explicit oracle records so every
operation is a total function and every property is decidable on concrete
inputs.
-/

namespace TerminalService

/-- The three platform branches `detectShell` distinguishes (`os.platform()`):
`win32`, `darwin`, and the default Unix branch (Linux and other Unixes). -/
inductive Platform where
  | win32
  | darwin
  | linux
deriving DecidableEq, Repr

/-- Modelled from the spec: the ambient platform/environment facts that the
missing `terminal-service.ts` reads through `os`, `fs` and `process.env`.
`existsSync` is a total filesystem probe (`fs.existsSync`);
`readProcVersion` is the result of `fs.readFileSync("/proc/version")`, with
`none` meaning the read threw; `statIsDir` is `fs.statSync(p).isDirectory()`,
with `none` meaning the stat call threw. -/
structure Env where
  platform : Platform
  shellVar : Option String
  wslDistroName : Option String
  wslenv : Option String
  existsSync : String → Bool
  readProcVersion : Option String
  statIsDir : String → Option Bool
  homedir : String

/-- Standard install path of PowerShell Core probed by the service
(pinned by the repository's test suite). -/
def pwshPath : String := "C:\\Program Files\\PowerShell\\7\\pwsh.exe"

/-- Standard install path of Windows PowerShell probed by the service
(pinned by the repository's test suite). -/
def powershellPath : String :=
  "C:\\Windows\\System32\\WindowsPowerShell\\v1.0\\powershell.exe"

/-- The result of shell detection: program plus argument vector. -/
structure ShellChoice where
  shell : String
  args : List String
deriving DecidableEq, Repr

/-- Modelled from the spec: `detectShell()` of the missing
`terminal-service.ts`, the first-match-wins decision table of §4.1, with the
concrete probe paths taken from the repository's test suite.  A `SHELL`
environment value is used only when set, non-empty and existing on disk. -/
def detectShell (env : Env) : ShellChoice :=
  match env.platform with
  | .win32 =>
    if env.existsSync pwshPath then ⟨pwshPath, []⟩
    else if env.existsSync powershellPath then ⟨powershellPath, []⟩
    else ⟨"cmd.exe", []⟩
  | .darwin =>
    match env.shellVar with
    | some sh =>
      if sh ≠ "" && env.existsSync sh then ⟨sh, ["--login"]⟩
      else if env.existsSync "/bin/zsh" then ⟨"/bin/zsh", ["--login"]⟩
      else ⟨"/bin/bash", ["--login"]⟩
    | none =>
      if env.existsSync "/bin/zsh" then ⟨"/bin/zsh", ["--login"]⟩
      else ⟨"/bin/bash", ["--login"]⟩
  | .linux =>
    match env.shellVar with
    | some sh =>
      if sh ≠ "" && env.existsSync sh then ⟨sh, ["--login"]⟩
      else if env.existsSync "/bin/bash" then ⟨"/bin/bash", ["--login"]⟩
      else ⟨"/bin/sh", []⟩
    | none =>
      if env.existsSync "/bin/bash" then ⟨"/bin/bash", ["--login"]⟩
      else ⟨"/bin/sh", []⟩

/-- Whether the character list `pat` occurs as a contiguous sublist of `s`. -/
def charsContain (pat : List Char) : List Char → Bool
  | [] => pat.isEmpty
  | c :: rest => pat.isPrefixOf (c :: rest) || charsContain pat rest

/-- Whether `pat` occurs as a substring of `s` (both as plain strings). -/
def strContains (s pat : String) : Bool :=
  charsContain pat.data s.data

/-- Lower-cases a string character by character (`toLowerCase`). -/
def lowerStr (s : String) : String :=
  ⟨s.data.map Char.toLower⟩

/-- Whether an optional environment-variable value is set and non-empty
(the truthiness test `!!process.env.X` applied to a string). -/
def envSet : Option String → Bool
  | some v => v ≠ ""
  | none => false

/-- Modelled from the spec: `isWSL()` of the missing `terminal-service.ts`.
Checks in order, short-circuiting on first true: the `/proc/version`
pseudo-file exists and contains the case-insensitive substring "microsoft" or
"wsl"; `WSL_DISTRO_NAME` is set and non-empty; `WSLENV` is set and non-empty.
A read error (`readProcVersion = none`) is swallowed and treated as not-WSL
for the file check, falling through to the environment checks. -/
def isWSL (env : Env) : Bool :=
  (if env.existsSync "/proc/version" then
    match env.readProcVersion with
    | some content =>
      strContains (lowerStr content) "microsoft" ||
        strContains (lowerStr content) "wsl"
    | none => false
  else false)
  || envSet env.wslDistroName
  || envSet env.wslenv

/-- Whether a path carries the recognized network-style `//wsl$/` double
slash form used for cross-environment filesystem bridging. -/
def wslUncPath (s : String) : Bool :=
  "//wsl$/".data.isPrefixOf s.data

/-- Collapses every run of repeated path separators in a character list to a
single separator. -/
def collapseChars : List Char → List Char
  | [] => []
  | [c] => [c]
  | c1 :: c2 :: rest =>
    if c1 = '/' && c2 = '/' then collapseChars (c2 :: rest)
    else c1 :: collapseChars (c2 :: rest)

/-- Collapses every run of repeated `/` separators in a string to a single
separator. -/
def collapseSlashes (s : String) : String :=
  ⟨collapseChars s.data⟩

/-- The path a requested cwd resolves to before the filesystem check: a
recognized `//wsl$/` network-style path is preserved verbatim, every other
path has its repeated separators collapsed. -/
def resolvedPath (req : String) : String :=
  if wslUncPath req then req else collapseSlashes req

/-- Modelled from the spec: the cwd normalization of the missing
`terminal-service.ts` (§4.3).  An absent request yields the home directory; a
recognized network-style `//wsl$/` prefix is preserved verbatim; otherwise
repeated separators are collapsed; and when the resulting path does not exist,
is not a directory, or the stat check itself throws, the home directory is
used instead. -/
def normalizeCwd (env : Env) (requested : Option String) : String :=
  match requested with
  | none => env.homedir
  | some req =>
    let p := resolvedPath req
    if env.existsSync p then
      match env.statIsDir p with
      | some true => p
      | some false => env.homedir
      | none => env.homedir
    else env.homedir

/-- Whether the `SHELL` environment value is usable as the interactive shell:
set, non-empty and existing on disk. -/
def shellUsable (env : Env) : Bool :=
  match env.shellVar with
  | some sh => sh ≠ "" && env.existsSync sh
  | none => false

/-- The concatenation of a list of output chunks in arrival order. -/
def concatChunks : List String → String
  | [] => ""
  | c :: rest => c ++ concatChunks rest

/-- A tracked Session record (§3 of the spec): identifier, launch parameters,
current dimensions and the accumulating scrollback buffer. -/
structure Session where
  id : String
  shell : String
  args : List String
  cwd : String
  cols : Nat
  rows : Nat
  scrollbackBuffer : String
  createdAt : Nat
deriving DecidableEq, Repr

/-- The observable face of a PTY child process handle.  `writes` records every
string forwarded to the process input stream, `resizeCalls` every underlying
resize invocation, `killCalls` every underlying kill invocation;
`resizeThrows` and `killThrows` are oracles saying whether the corresponding
OS-level call raises when invoked. -/
structure PtyProc where
  writes : List String
  resizeCalls : List (Nat × Nat)
  killCalls : Nat
  resizeThrows : Bool
  killThrows : Bool
deriving DecidableEq, Repr

/-- A freshly spawned process handle with the given failure oracles and no
recorded calls. -/
def PtyProc.fresh (resizeThrows killThrows : Bool) : PtyProc :=
  ⟨[], [], 0, resizeThrows, killThrows⟩

/-- One Store entry: the Session record, its exclusively owned process handle
and the pending (not yet flushed) output buffer of the Output Batcher. -/
structure Entry where
  session : Session
  proc : PtyProc
  pending : String
deriving DecidableEq, Repr

/-- Modelled from the spec: the state of the missing `terminal-service.ts`
service object — the Session Store in creation order, the data/exit
subscriber registries (subscribers identified by opaque tokens) and the
counter feeding fresh session ids. -/
structure Service where
  sessions : List Entry
  dataSubs : List Nat
  exitSubs : List Nat
  nextId : Nat
deriving DecidableEq, Repr

/-- The service as first constructed: empty Store, no subscribers. -/
def Service.init : Service := ⟨[], [], [], 0⟩

/-- Looks up a Store entry by session id. -/
def Service.findEntry (svc : Service) (id : String) : Option Entry :=
  svc.sessions.find? (fun e => e.session.id = id)

/-- Modelled from the spec: `getSession(id)` — pure lookup, absent becomes
`none`. -/
def Service.getSession (svc : Service) (id : String) : Option Session :=
  (svc.findEntry id).map (fun e => e.session)

/-- Modelled from the spec: `getAllSessions()` — all tracked sessions in
creation order. -/
def Service.getAllSessions (svc : Service) : List Session :=
  svc.sessions.map (fun e => e.session)

/-- Modelled from the spec: `getScrollback(id)` — the tracked session's
scrollback buffer, or the absent-marker `null` (here `none`) for an unknown
id; a pure lookup with no side effects. -/
def Service.getScrollback (svc : Service) (id : String) : Option String :=
  (svc.findEntry id).map (fun e => e.session.scrollbackBuffer)

/-- Applies `f` to the entry whose session id is `id`, leaving every other
entry unchanged. -/
def Service.updateEntry (svc : Service) (id : String) (f : Entry → Entry) :
    Service :=
  { svc with
    sessions := svc.sessions.map fun e =>
      if e.session.id = id then f e else e }

/-- Options accepted by `createSession` (`{cwd?, cols?, rows?}`). -/
structure SessionOptions where
  cwd : Option String
  cols : Option Nat
  rows : Option Nat
deriving DecidableEq, Repr

/-- The empty options object (`createSession()` with no argument). -/
def SessionOptions.none : SessionOptions := ⟨Option.none, Option.none, Option.none⟩

/-- Modelled from the spec: `createSession(options?)` of the missing
`terminal-service.ts` (§4.4).  Resolves the shell, normalizes the cwd,
generates a fresh `term-`-prefixed id, spawns the child (whose OS-level
failure behaviour is the `proc` oracle) with cols defaulting to 80 and rows
to 24, and registers the Session in the Store.  Returns the new state and the
Session. -/
def Service.createSession (env : Env) (proc : PtyProc) (opts : SessionOptions)
    (svc : Service) : Service × Session :=
  let choice := detectShell env
  let cwd := normalizeCwd env opts.cwd
  let session : Session :=
    { id := "term-" ++ toString svc.nextId
      shell := choice.shell
      args := choice.args
      cwd := cwd
      cols := opts.cols.getD 80
      rows := opts.rows.getD 24
      scrollbackBuffer := ""
      createdAt := svc.nextId }
  ({ svc with
      sessions := svc.sessions ++ [⟨session, proc, ""⟩]
      nextId := svc.nextId + 1 },
    session)

/-- Modelled from the spec: `write(id, data)` — when `id` is tracked, forwards
`data` verbatim to the process input stream and returns true; otherwise
returns false with no effect. -/
def Service.write (svc : Service) (id : String) (data : String) :
    Service × Bool :=
  match svc.findEntry id with
  | some _ =>
    (svc.updateEntry id (fun e =>
      { e with proc := { e.proc with writes := e.proc.writes ++ [data] } }),
     true)
  | none => (svc, false)

/-- Modelled from the spec: `resize(id, cols, rows)` — unknown id returns
false with no side effects and no underlying resize call; on a known id the
underlying resize is invoked, and when it throws (the `resizeThrows` oracle)
the error is absorbed, the Session's dimensions are left unchanged and false
is returned; on success the dimensions are updated and true is returned. -/
def Service.resize (svc : Service) (id : String) (cols rows : Nat) :
    Service × Bool :=
  match svc.findEntry id with
  | none => (svc, false)
  | some e =>
    if e.proc.resizeThrows then
      (svc.updateEntry id (fun e1 =>
        { e1 with proc :=
          { e1.proc with resizeCalls := e1.proc.resizeCalls ++ [(cols, rows)] } }),
       false)
    else
      (svc.updateEntry id (fun e1 =>
        { e1 with
          session := { e1.session with cols := cols, rows := rows }
          proc :=
            { e1.proc with resizeCalls := e1.proc.resizeCalls ++ [(cols, rows)] } }),
       true)

/-- Modelled from the spec: `killSession(id)` of the missing
`terminal-service.ts`.  Unknown id: false, no kill call, Store unchanged.
Known id: the underlying kill is invoked; the spec's §4.4 wording says true is
returned even when that call throws, but the repository's own test
`should handle kill errors` requires false in that case, so the error path
follows the test: when the kill call throws the error is absorbed, the entry
stays in the Store (removal follows a successful kill) and false is returned;
on a successful kill the entry is removed and true is returned. -/
def Service.killSession (svc : Service) (id : String) : Service × Bool :=
  match svc.findEntry id with
  | none => (svc, false)
  | some e =>
    if e.proc.killThrows then
      (svc.updateEntry id (fun e1 =>
        { e1 with proc := { e1.proc with killCalls := e1.proc.killCalls + 1 } }),
       false)
    else
      ({ svc with sessions := svc.sessions.filter (fun e1 => e1.session.id ≠ id) },
       true)

/-- Modelled from the spec: `cleanup()` — iterates all tracked sessions,
invokes the underlying kill on each (any individual failure is swallowed and
never aborts the iteration), and empties the Store.  The second component
lists the session ids whose kill was attempted, in iteration order. -/
def Service.cleanup (svc : Service) : Service × List String :=
  ({ svc with sessions := [] },
   svc.sessions.map (fun e => e.session.id))

/-- One exit notification as delivered to one exit subscriber:
(subscriber token, session id, exit code). -/
abbrev ExitNote := Nat × String × Int

/-- One data notification as delivered to one data subscriber:
(subscriber token, session id, batched text). -/
abbrev DataNote := Nat × String × String

/-- Modelled from the spec: the child-process exit handler attached by
`createSession` (§4.4/§4.5).  When the exiting id is still tracked, the
session is removed from the Store and every registered exit subscriber is
notified with `(id, exitCode)`; a subsequent exit event for the same id finds
no session and delivers nothing. -/
def Service.processExit (svc : Service) (id : String) (exitCode : Int) :
    Service × List ExitNote :=
  match svc.findEntry id with
  | some _ =>
    ({ svc with sessions := svc.sessions.filter (fun e => e.session.id ≠ id) },
     svc.exitSubs.map (fun tok => (tok, id, exitCode)))
  | none => (svc, [])

/-- Modelled from the spec: arrival of one raw output chunk (§4.5).  The chunk
is appended to the session's scrollback buffer immediately and to the pending
batch buffer awaiting the timer flush; subscribers see nothing yet.  A chunk
for an untracked id is dropped. -/
def Service.ptyData (svc : Service) (id : String) (chunk : String) : Service :=
  svc.updateEntry id (fun e =>
    { e with
      session :=
        { e.session with
          scrollbackBuffer := e.session.scrollbackBuffer ++ chunk }
      pending := e.pending ++ chunk })

/-- Modelled from the spec: the per-session batching timer firing (§4.5).
The pending buffer accumulated during the window is delivered as one data
notification per registered data subscriber (none when the buffer is empty)
and cleared. -/
def Service.flush (svc : Service) (id : String) : Service × List DataNote :=
  match svc.findEntry id with
  | some e =>
    if e.pending = "" then (svc, [])
    else
      (svc.updateEntry id (fun e1 => { e1 with pending := "" }),
       svc.dataSubs.map (fun tok => (tok, id, e.pending)))
  | none => (svc, [])

/-- Feeds a list of chunks for one session through `ptyData` in order. -/
def Service.ptyDataList (svc : Service) (id : String) (chunks : List String) :
    Service :=
  chunks.foldl (fun s c => s.ptyData id c) svc

/-- A concrete macOS environment with `SHELL=/bin/zsh` present on disk. -/
def envMacZsh : Env :=
  { platform := Platform.darwin
    shellVar := some "/bin/zsh"
    wslDistroName := Option.none
    wslenv := Option.none
    existsSync := fun _ => true
    readProcVersion := Option.none
    statIsDir := fun _ => some true
    homedir := "/home/user" }

/-- A concrete Linux environment whose kernel-version pseudo-file carries a
Microsoft marker and whose WSL environment variables are unset. -/
def envWslProbe : Env :=
  { platform := Platform.linux
    shellVar := some "/bin/bash"
    wslDistroName := Option.none
    wslenv := Option.none
    existsSync := fun _ => true
    readProcVersion := some "Linux version 5.10.0-microsoft-standard"
    statIsDir := fun _ => some true
    homedir := "/home/user" }

/-- A concrete environment where every path exists and is a directory. -/
def envAllDirs : Env :=
  { platform := Platform.linux
    shellVar := some "/bin/bash"
    wslDistroName := Option.none
    wslenv := Option.none
    existsSync := fun _ => true
    readProcVersion := Option.none
    statIsDir := fun _ => some true
    homedir := "/home/user" }

/-- A concrete session record used by the witness states. -/
def sessW : Session :=
  ⟨"term-0", "/bin/bash", ["--login"], "/home/user", 80, 24, "", 0⟩

/-- A well-behaved Store entry for session `term-0`. -/
def entryW : Entry := ⟨sessW, PtyProc.fresh false false, ""⟩

/-- A service tracking `term-0` with one data and one exit subscriber. -/
def svcW : Service := ⟨[entryW], [0], [0], 1⟩

/-- A Store entry whose process handle throws on the underlying kill call. -/
def entryKT : Entry := ⟨sessW, PtyProc.fresh false true, ""⟩

/-- A service tracking `term-0` whose underlying kill call throws. -/
def svcKT : Service := ⟨[entryKT], [], [], 1⟩

/-- A Store entry whose process handle throws on the underlying resize
call. -/
def entryRT : Entry := ⟨sessW, PtyProc.fresh true false, ""⟩

/-- A service tracking `term-0` whose underlying resize call throws. -/
def svcRT : Service := ⟨[entryRT], [], [], 1⟩

/-- Updating the entry of `id` with an id-preserving function changes exactly
what the lookup of `id` returns, through `f`. -/
theorem findEntry_updateEntry (svc : Service) (id : String) (f : Entry → Entry)
    (hf : ∀ e, (f e).session.id = e.session.id) :
    (svc.updateEntry id f).findEntry id = (svc.findEntry id).map f := by
  obtain ⟨l, d, x, n⟩ := svc
  simp only [Service.updateEntry, Service.findEntry]
  induction l with
  | nil => rfl
  | cons a l ih =>
    by_cases h : a.session.id = id
    · simp [List.find?_cons, h, hf a]
    · simp [List.find?_cons, h, ih]

/-- Updating an entry leaves the subscriber registries and the id counter
untouched. -/
theorem updateEntry_rest (svc : Service) (id : String) (f : Entry → Entry) :
    (svc.updateEntry id f).dataSubs = svc.dataSubs ∧
    (svc.updateEntry id f).exitSubs = svc.exitSubs ∧
    (svc.updateEntry id f).nextId = svc.nextId :=
  ⟨rfl, rfl, rfl⟩

/-- After filtering out every entry with session id `id`, the lookup of `id`
finds nothing. -/
theorem find_filter_ne_eq_none (l : List Entry) (id : String) :
    (l.filter fun e => e.session.id ≠ id).find?
      (fun e => e.session.id = id) = Option.none := by
  apply List.find?_eq_none.2
  intro e he
  have h := (List.mem_filter.1 he).2
  simp_all

/-- Feeding a list of chunks appends their concatenation to both the
scrollback buffer and the pending batch of the addressed session, leaving the
session's other fields, its process handle and the subscriber registries
unchanged. -/
theorem ptyDataList_effect (chunks : List String) (svc : Service)
    (id : String) (e : Entry) (h : svc.findEntry id = some e) :
    (svc.ptyDataList id chunks).findEntry id = some
      ⟨⟨e.session.id, e.session.shell, e.session.args, e.session.cwd,
        e.session.cols, e.session.rows,
        e.session.scrollbackBuffer ++ concatChunks chunks,
        e.session.createdAt⟩,
       e.proc, e.pending ++ concatChunks chunks⟩ ∧
    (svc.ptyDataList id chunks).dataSubs = svc.dataSubs := by
  induction chunks generalizing svc e with
  | nil =>
    constructor
    · simpa [Service.ptyDataList, concatChunks] using h
    · rfl
  | cons c rest ih =>
    have h1 : (svc.ptyData id c).findEntry id = some
        ⟨⟨e.session.id, e.session.shell, e.session.args, e.session.cwd,
          e.session.cols, e.session.rows,
          e.session.scrollbackBuffer ++ c, e.session.createdAt⟩,
         e.proc, e.pending ++ c⟩ := by
      have hu := findEntry_updateEntry svc id
        (fun e1 =>
          { e1 with
            session :=
              { e1.session with
                scrollbackBuffer := e1.session.scrollbackBuffer ++ c }
            pending := e1.pending ++ c }) (fun e1 => rfl)
      rw [h] at hu
      exact hu
    have h2 := ih (svc.ptyData id c) _ h1
    constructor
    · have h3 := h2.1
      simpa [Service.ptyDataList, concatChunks, String.append_assoc] using h3
    · exact h2.2.trans rfl

/-- Claim C10: `getScrollback(id)` uses `null` (here `Option.none`) as the
absent-marker: for every id not in the Store it returns exactly the
absent-marker, never the empty string, and for every tracked session it
returns that session's scrollback buffer; it is a pure lookup with no side
effects. -/
theorem getScrollback_contract (svc : Service) (id : String) :
    (svc.getSession id = Option.none →
      svc.getScrollback id = Option.none ∧ svc.getScrollback id ≠ some "") ∧
    (∀ e, svc.findEntry id = some e →
      svc.getScrollback id = some e.session.scrollbackBuffer) ∧
    (svc.getScrollback id = Option.none ↔ svc.getSession id = Option.none) := by
  cases h : svc.findEntry id <;>
    simp [Service.getSession, Service.getScrollback, h]

/-- Witness for claim C10 at a concrete unknown id. -/
theorem getScrollback_contract_witness :
    Service.init.getScrollback "bogus-id" = Option.none :=
  ((getScrollback_contract Service.init "bogus-id").1 rfl).1

/-- Claim C3: `write(id, data)` forwards exactly the string `data`, unchanged,
to the session's process input stream and returns true when `id` is tracked;
on an unknown id it returns false and forwards nothing, with no effect on any
process or session. -/
theorem write_forwards (svc : Service) (id data : String) :
    (∀ e, svc.findEntry id = some e →
      (svc.write id data).2 = true ∧
      ∃ e2, (svc.write id data).1.findEntry id = some e2 ∧
        e2.proc.writes = e.proc.writes ++ [data] ∧
        e2.session = e.session) ∧
    (svc.findEntry id = Option.none → svc.write id data = (svc, false)) := by
  constructor
  · intro e h
    constructor
    · simp [Service.write, h]
    · refine ⟨{ e with proc := { e.proc with writes := e.proc.writes ++ [data] } },
        ?_, rfl, rfl⟩
      have hu := findEntry_updateEntry svc id
        (fun e1 =>
          { e1 with proc := { e1.proc with writes := e1.proc.writes ++ [data] } })
        (fun e1 => rfl)
      rw [h] at hu
      simpa [Service.write, h] using hu
  · intro h
    simp [Service.write, h]

/-- Witness for claim C3: writing to the tracked session forwards the data
and answers true. -/
theorem write_forwards_witness :
    (svcW.write "term-0" "ls\n").2 = true :=
  (((write_forwards svcW "term-0" "ls\n").1 entryW rfl)).1

/-- Claim C7: `resize(id, cols, rows)` on an unknown id returns false with no
side effects and no underlying resize call; on a known id whose underlying
resize throws, the error is absorbed, false is returned and the Session's
`cols`/`rows` are unchanged; on success it updates the dimensions and returns
true. -/
theorem resize_contract (svc : Service) (id : String) (cols rows : Nat) :
    (svc.findEntry id = Option.none → svc.resize id cols rows = (svc, false)) ∧
    (∀ e, svc.findEntry id = some e → e.proc.resizeThrows = true →
      (svc.resize id cols rows).2 = false ∧
      ∃ e2, (svc.resize id cols rows).1.findEntry id = some e2 ∧
        e2.session = e.session ∧
        e2.proc.resizeCalls = e.proc.resizeCalls ++ [(cols, rows)]) ∧
    (∀ e, svc.findEntry id = some e → e.proc.resizeThrows = false →
      (svc.resize id cols rows).2 = true ∧
      ∃ e2, (svc.resize id cols rows).1.findEntry id = some e2 ∧
        e2.session.cols = cols ∧ e2.session.rows = rows ∧
        e2.proc.resizeCalls = e.proc.resizeCalls ++ [(cols, rows)]) := by
  refine ⟨?_, ?_, ?_⟩
  · intro h
    simp [Service.resize, h]
  · intro e h ht
    constructor
    · simp [Service.resize, h, ht]
    · refine ⟨{ e with proc :=
          { e.proc with resizeCalls := e.proc.resizeCalls ++ [(cols, rows)] } },
        ?_, rfl, rfl⟩
      have hu := findEntry_updateEntry svc id
        (fun e1 =>
          { e1 with proc :=
            { e1.proc with resizeCalls := e1.proc.resizeCalls ++ [(cols, rows)] } })
        (fun e1 => rfl)
      rw [h] at hu
      simpa [Service.resize, h, ht] using hu
  · intro e h ht
    constructor
    · simp [Service.resize, h, ht]
    · refine ⟨{ e with
          session := { e.session with cols := cols, rows := rows }
          proc :=
            { e.proc with resizeCalls := e.proc.resizeCalls ++ [(cols, rows)] } },
        ?_, rfl, rfl, rfl⟩
      have hu := findEntry_updateEntry svc id
        (fun e1 =>
          { e1 with
            session := { e1.session with cols := cols, rows := rows }
            proc :=
              { e1.proc with resizeCalls := e1.proc.resizeCalls ++ [(cols, rows)] } })
        (fun e1 => rfl)
      rw [h] at hu
      simpa [Service.resize, h, ht] using hu

/-- Witness for claim C7: a resize whose underlying call throws answers
false. -/
theorem resize_contract_witness :
    (svcRT.resize "term-0" 120 40).2 = false :=
  ((resize_contract svcRT "term-0" 120 40).2.1 entryRT rfl rfl).1

/-- Counterexample to claim C1 as stated: in `svcKT` the id `term-0` is in the
Store, yet `killSession` answers false when the underlying kill call throws,
where the claim requires true. -/
theorem killSession_claim_counterexample :
    (svcKT.getSession "term-0").isSome = true ∧
    (svcKT.killSession "term-0").2 = false := by
  constructor <;> rfl

/-- Claim C1 (amended): on an unknown id `killSession` returns false, invokes
no underlying termination call and leaves the Store unchanged; on a known id
the underlying kill is invoked, and when it throws the error is absorbed and
false is returned with the session still tracked; when the kill call succeeds
the session is removed from the Store and true is returned. -/
theorem killSession_amended (svc : Service) (id : String) :
    (svc.findEntry id = Option.none → svc.killSession id = (svc, false)) ∧
    (∀ e, svc.findEntry id = some e → e.proc.killThrows = true →
      (svc.killSession id).2 = false ∧
      ∃ e2, (svc.killSession id).1.findEntry id = some e2 ∧
        e2.proc.killCalls = e.proc.killCalls + 1 ∧
        e2.session = e.session) ∧
    (∀ e, svc.findEntry id = some e → e.proc.killThrows = false →
      (svc.killSession id).2 = true ∧
      (svc.killSession id).1.getSession id = Option.none) := by
  refine ⟨?_, ?_, ?_⟩
  · intro h
    simp [Service.killSession, h]
  · intro e h ht
    constructor
    · simp [Service.killSession, h, ht]
    · refine ⟨{ e with proc := { e.proc with killCalls := e.proc.killCalls + 1 } },
        ?_, rfl, rfl⟩
      have hu := findEntry_updateEntry svc id
        (fun e1 =>
          { e1 with proc := { e1.proc with killCalls := e1.proc.killCalls + 1 } })
        (fun e1 => rfl)
      rw [h] at hu
      simpa [Service.killSession, h, ht] using hu
  · intro e h ht
    constructor
    · simp [Service.killSession, h, ht]
    · simp only [Service.killSession, h, ht]
      simp only [Service.getSession, Service.findEntry]
      simp [find_filter_ne_eq_none]

/-- Witness for the amended claim C1: a successful kill of the tracked
session answers true. -/
theorem killSession_amended_witness :
    (svcW.killSession "term-0").2 = true :=
  ((killSession_amended svcW "term-0").2.2 entryW rfl rfl).1

/-- Claim C4: when a tracked session's child process exits, every registered
exit subscriber is notified with `(id, exitCode)` exactly once (one
notification per subscriber token), the session is removed from the Store so
`getSession(id)` is subsequently absent, and a repeated exit event for the
same session delivers nothing. -/
theorem exitNotification_exactly_once (svc : Service) (id : String)
    (code : Int) :
    (∀ e, svc.findEntry id = some e →
      (svc.processExit id code).2 =
        svc.exitSubs.map (fun tok => (tok, id, code)) ∧
      (svc.processExit id code).1.getSession id = Option.none ∧
      ((svc.processExit id code).1.processExit id code) =
        ((svc.processExit id code).1, [])) ∧
    (svc.findEntry id = Option.none → svc.processExit id code = (svc, [])) := by
  have hnone : ∀ s2 : Service, s2.findEntry id = Option.none →
      s2.processExit id code = (s2, []) := by
    intro s2 hs2
    simp [Service.processExit, hs2]
  constructor
  · intro e h
    have hn : (svc.processExit id code).1.findEntry id = Option.none := by
      simp only [Service.processExit, h]
      simp only [Service.findEntry]
      exact find_filter_ne_eq_none svc.sessions id
    refine ⟨by simp [Service.processExit, h], ?_, hnone _ hn⟩
    simp [Service.getSession, hn]
  · exact hnone svc

/-- Witness for claim C4: the single exit subscriber of `svcW` is notified
exactly once with the session id and exit code. -/
theorem exitNotification_exactly_once_witness :
    (svcW.processExit "term-0" 0).2 = [(0, "term-0", 0)] :=
  (((exitNotification_exactly_once svcW "term-0" 0).1 entryW rfl)).1.trans rfl

/-- Claim C9: `cleanup()` empties the Store — afterwards `getAllSessions()` is
empty and every lookup is absent — while attempting the underlying kill on
every tracked session in order, with each attempt's possible failure absorbed
(the result is a total function of the state, so no failure aborts the
iteration or escapes). -/
theorem cleanup_total (svc : Service) :
    (svc.cleanup).1.getAllSessions = [] ∧
    (∀ id, (svc.cleanup).1.getSession id = Option.none) ∧
    (svc.cleanup).2 = (svc.getAllSessions).map (fun s => s.id) := by
  refine ⟨rfl, fun id => rfl, ?_⟩
  simp [Service.cleanup, Service.getAllSessions]

/-- Prepending the empty string leaves a string unchanged. -/
theorem str_empty_append (s : String) : "" ++ s = s := rfl

/-- Claim C2: `detectShell()` follows the first-match-wins decision table: on
Windows `pwsh.exe` at its standard path, else `powershell.exe` at its
standard path, else `cmd.exe`, all with empty args; on macOS the `SHELL`
value when that file exists, else `/bin/zsh` when it exists, else
`/bin/bash`, all with `--login`; on Linux the `SHELL` value when that file
exists, else `/bin/bash` when it exists (both with `--login`), else `/bin/sh`
with empty args.  It is total and the returned program is non-empty. -/
theorem detectShell_decision_table (env : Env) :
    (detectShell env).shell ≠ "" ∧
    (env.platform = Platform.win32 →
      ((env.existsSync pwshPath = true → detectShell env = ⟨pwshPath, []⟩) ∧
       (env.existsSync pwshPath = false → env.existsSync powershellPath = true →
         detectShell env = ⟨powershellPath, []⟩) ∧
       (env.existsSync pwshPath = false → env.existsSync powershellPath = false →
         detectShell env = ⟨"cmd.exe", []⟩))) ∧
    (env.platform = Platform.darwin →
      ((∀ sh, env.shellVar = some sh → sh ≠ "" → env.existsSync sh = true →
         detectShell env = ⟨sh, ["--login"]⟩) ∧
       (shellUsable env = false → env.existsSync "/bin/zsh" = true →
         detectShell env = ⟨"/bin/zsh", ["--login"]⟩) ∧
       (shellUsable env = false → env.existsSync "/bin/zsh" = false →
         detectShell env = ⟨"/bin/bash", ["--login"]⟩))) ∧
    (env.platform = Platform.linux →
      ((∀ sh, env.shellVar = some sh → sh ≠ "" → env.existsSync sh = true →
         detectShell env = ⟨sh, ["--login"]⟩) ∧
       (shellUsable env = false → env.existsSync "/bin/bash" = true →
         detectShell env = ⟨"/bin/bash", ["--login"]⟩) ∧
       (shellUsable env = false → env.existsSync "/bin/bash" = false →
         detectShell env = ⟨"/bin/sh", []⟩))) := by
  obtain ⟨p, sv, w1, w2, ex, rp, st, hd⟩ := env
  cases p <;> cases sv <;>
    refine ⟨?_, ?_, ?_, ?_⟩ <;>
    simp_all [detectShell, shellUsable] <;>
    split_ifs <;>
    simp_all <;>
    decide

/-- Witness for claim C2: macOS with `SHELL=/bin/zsh` present yields
`/bin/zsh` with `--login`. -/
theorem detectShell_decision_table_witness :
    detectShell envMacZsh = ⟨"/bin/zsh", ["--login"]⟩ :=
  ((detectShell_decision_table envMacZsh).2.2.1 rfl).1 "/bin/zsh" rfl
    (by decide) rfl

/-- Claim C8: `isWSL()` returns true whenever the kernel-version pseudo-file
exists and contains the case-insensitive substring "microsoft" or "wsl", even
with no WSL environment variables set; otherwise it returns true exactly when
`WSL_DISTRO_NAME` or `WSLENV` is set and non-empty; a read error is swallowed
and falls through to the environment checks, and the function is total. -/
theorem isWSL_checks (env : Env) :
    (∀ content, env.existsSync "/proc/version" = true →
      env.readProcVersion = some content →
      (strContains (lowerStr content) "microsoft" = true ∨
        strContains (lowerStr content) "wsl" = true) →
      isWSL env = true) ∧
    (env.existsSync "/proc/version" = false →
      isWSL env = (envSet env.wslDistroName || envSet env.wslenv)) ∧
    (env.readProcVersion = Option.none →
      isWSL env = (envSet env.wslDistroName || envSet env.wslenv)) ∧
    (∀ content, env.readProcVersion = some content →
      strContains (lowerStr content) "microsoft" = false →
      strContains (lowerStr content) "wsl" = false →
      isWSL env = (envSet env.wslDistroName || envSet env.wslenv)) := by
  refine ⟨?_, ?_, ?_, ?_⟩
  · intro content hex hrd hor
    cases hor with
    | inl hm => simp [isWSL, hex, hrd, hm]
    | inr hw => simp [isWSL, hex, hrd, hw]
  · intro hex
    simp [isWSL, hex]
  · intro hrd
    cases hex : env.existsSync "/proc/version" <;>
      simp [isWSL, hex, hrd]
  · intro content hrd hm hw
    cases hex : env.existsSync "/proc/version" <;>
      simp [isWSL, hex, hrd, hm, hw]

/-- Witness for claim C8: a kernel-version probe containing "microsoft" makes
`isWSL` true with no WSL environment variables set. -/
theorem isWSL_checks_witness : isWSL envWslProbe = true :=
  (isWSL_checks envWslProbe).1 "Linux version 5.10.0-microsoft-standard" rfl rfl
    (Or.inl (by decide))

/-- Claim C6: `normalizeCwd` collapses accidental repeated separators (so
`//test/dir` resolves to `/test/dir`) but preserves recognized network-style
`//wsl$/` paths verbatim, and falls back to the home directory whenever the
resolved path does not exist, exists but is not a directory, or the stat
check itself errors. -/
theorem normalizeCwd_rules (env : Env) (req : String) :
    (resolvedPath "//test/dir" = "/test/dir" ∧
     resolvedPath "//wsl$/Ubuntu/home" = "//wsl$/Ubuntu/home") ∧
    (env.existsSync (resolvedPath req) = true →
      env.statIsDir (resolvedPath req) = some true →
      normalizeCwd env (some req) = resolvedPath req) ∧
    (env.existsSync (resolvedPath req) = false →
      normalizeCwd env (some req) = env.homedir) ∧
    (env.statIsDir (resolvedPath req) = some false →
      normalizeCwd env (some req) = env.homedir) ∧
    (env.statIsDir (resolvedPath req) = Option.none →
      normalizeCwd env (some req) = env.homedir) := by
  refine ⟨⟨by decide, by decide⟩, ?_, ?_, ?_, ?_⟩
  · intro h1 h2
    simp [normalizeCwd, h1, h2]
  · intro h1
    simp [normalizeCwd, h1]
  · intro h2
    by_cases h1 : env.existsSync (resolvedPath req) <;>
      simp [normalizeCwd, h1, h2]
  · intro h2
    by_cases h1 : env.existsSync (resolvedPath req) <;>
      simp [normalizeCwd, h1, h2]

/-- Witness for claim C6: the accidental leading double separator of
`//test/dir` is collapsed when the collapsed path is an existing
directory. -/
theorem normalizeCwd_rules_witness :
    normalizeCwd envAllDirs (some "//test/dir") = "/test/dir" :=
  ((normalizeCwd_rules envAllDirs "//test/dir").2.1 rfl rfl).trans (by decide)

/-- Claim C5: all output chunks arriving within one batching window are
coalesced: each data subscriber receives at most one notification for the
window (exactly one when any bytes arrived), carrying the concatenation of
the chunks in arrival order with no bytes dropped, while the session's
scrollback equals the full concatenation of everything emitted, before and
after the flush. -/
theorem outputBatching_window (svc : Service) (id : String)
    (chunks : List String) (e : Entry) (h : svc.findEntry id = some e)
    (hp : e.pending = "") :
    (∃ e2, (svc.ptyDataList id chunks).findEntry id = some e2 ∧
      e2.session.scrollbackBuffer =
        e.session.scrollbackBuffer ++ concatChunks chunks ∧
      e2.pending = concatChunks chunks) ∧
    ((svc.ptyDataList id chunks).flush id).2 =
      (if concatChunks chunks = "" then []
       else svc.dataSubs.map fun tok => (tok, id, concatChunks chunks)) ∧
    (∃ e3, ((svc.ptyDataList id chunks).flush id).1.findEntry id = some e3 ∧
      e3.session.scrollbackBuffer =
        e.session.scrollbackBuffer ++ concatChunks chunks) := by
  have hE : (svc.ptyDataList id chunks).findEntry id = some
      ⟨⟨e.session.id, e.session.shell, e.session.args, e.session.cwd,
        e.session.cols, e.session.rows,
        e.session.scrollbackBuffer ++ concatChunks chunks,
        e.session.createdAt⟩,
       e.proc, concatChunks chunks⟩ := by
    have h1 := (ptyDataList_effect chunks svc id e h).1
    rw [hp] at h1
    simpa [str_empty_append] using h1
  have hsubs := (ptyDataList_effect chunks svc id e h).2
  refine ⟨⟨_, hE, rfl, rfl⟩, ?_, ?_⟩
  · by_cases hc : concatChunks chunks = ""
    · simp [Service.flush, hE, hc]
    · simp only [Service.flush, hE, if_neg hc]
      rw [hsubs]
  · by_cases hc : concatChunks chunks = ""
    · simp only [Service.flush, hE, if_pos hc]
      exact ⟨_, rfl, rfl⟩
    · have hu := findEntry_updateEntry (svc.ptyDataList id chunks) id
        (fun e1 => { e1 with pending := "" }) (fun e1 => rfl)
      rw [hE] at hu
      simp only [Service.flush, hE, if_neg hc]
      exact ⟨_, hu, rfl⟩

/-- Witness for claim C5: two chunks within one window reach the single data
subscriber as one notification with the bytes concatenated in order. -/
theorem outputBatching_window_witness :
    ((svcW.ptyDataList "term-0" ["he", "llo"]).flush "term-0").2 =
      [(0, "term-0", "hello")] := by
  have h := (outputBatching_window svcW "term-0" ["he", "llo"] entryW rfl
    rfl).2.1
  exact h.trans (by decide)

end TerminalService
